import Mathlib

/-!
Shallow embedding of the chemicalanalyzer CSV ingestion pipeline
(`backend/equipment/services.py`, `utils.py`, `models.py`, `views.py`,
`serializers.py`, `pdf_utils.py`) and proofs of the spec claims about it.

Modelling conventions:
* CSV cells are `Option String`; `none` models a blank/absent cell, which
  pandas `read_csv` parses as `NaN`.
* Python floats are modelled as `ℚ`; `float()` / `pd.to_numeric` parsing is
  modelled by `parseFloat?` (sign, digits, optional fraction and exponent);
  `round(x, 2)` is modelled by round-half-to-even at two decimals.
* Exceptions are modelled with `Except`; Django model rows are plain
  structures and the database is a list of such structures.
* The analysis keeps only the five canonical columns of each row (the
  source's dataframe also carries unrecognized extra columns along, but no
  claim concerns them).
-/

deriving instance DecidableEq for Except

namespace ChemAnalyzer

attribute [local semireducible] Rat.add Rat.mul Rat.inv Rat.sub Rat.ofScientific

/-! ### String primitives

Structurally recursive models of the Python string methods the pipeline
uses (`str.strip`, `str.lower`, `str.replace(' ', '_')`, suffix test), so
that every definition evaluates inside the kernel. -/

/-- The ASCII whitespace stripped by Python `str.strip()`. -/
def isSpaceChar (c : Char) : Bool :=
  c = ' ' || c = '\t' || c = '\n' || c = '\r' || c = '\x0b' || c = '\x0c'

/-- Strip leading and trailing whitespace from a character list. -/
def trimList (cs : List Char) : List Char :=
  ((cs.dropWhile isSpaceChar).reverse.dropWhile isSpaceChar).reverse

/-- Python `str.strip()`. -/
def pyStrip (s : String) : String := String.mk (trimList s.toList)

/-- ASCII lowercasing of one character (the headers are ASCII). -/
def lowerChar (c : Char) : Char :=
  if 'A' ≤ c && c ≤ 'Z' then Char.ofNat (c.toNat + 32) else c

/-- Python `str.lower()`. -/
def pyLower (s : String) : String := String.mk (s.toList.map lowerChar)

/-- Python `str.replace(' ', '_')`. -/
def spacesToUnderscores (s : String) : String :=
  String.mk (s.toList.map (fun c => if c = ' ' then '_' else c))

/-- Python `str.endswith(suffix)`. -/
def pyEndsWith (s suffix : String) : Bool :=
  List.isSuffixOf suffix.toList s.toList

/-! ### Column normalizer (`services.normalize_column_name`) -/

/-- The `exact_mapping` table of `normalize_column_name` (fast path). -/
def exactMapping : List (String × String) :=
  [("equipment name", "equipment_name"),
   ("equipmentname", "equipment_name"),
   ("type", "type"),
   ("flowrate", "flowrate"),
   ("pressure", "pressure"),
   ("temperature", "temperature")]

/-- The secondary `column_mapping` table of `normalize_column_name`. -/
def columnMapping : List (String × String) :=
  [("name", "equipment_name"),
   ("equipment", "equipment_name"),
   ("equipment_type", "type"),
   ("flow_rate", "flowrate"),
   ("flow", "flowrate"),
   ("temp", "temperature")]

/-- Characters kept by `re.sub(r'[^a-z0-9_]', '', ...)`. -/
def isAllowedChar (c : Char) : Bool :=
  (('a' ≤ c && c ≤ 'z') || ('0' ≤ c && c ≤ '9') || c = '_')

/-- Remove every character outside `[a-z0-9_]`. -/
def stripDisallowed (s : String) : String :=
  String.mk (s.toList.filter isAllowedChar)

/-- `services.normalize_column_name`: trim and lowercase, try the exact
table, otherwise underscore spaces, strip disallowed characters and try the
secondary synonym table, finally fall back to the normalized string. -/
def normalize_column_name (column_name : String) : String :=
  let lower_original := pyLower (pyStrip column_name)
  match exactMapping.lookup lower_original with
  | some v => v
  | none =>
      let normalized := stripDisallowed (spacesToUnderscores lower_original)
      (columnMapping.lookup normalized).getD normalized

/-! ### Float parsing (model of `pd.to_numeric(errors='coerce')` / `float`) -/

/-- Value of a digit string, most significant first. -/
def digitsToNat (ds : List Char) : Nat :=
  ds.foldl (fun n c => 10 * n + (c.toNat - '0'.toNat)) 0

/-- Split a character list into its leading digits and the rest. -/
def splitDigits (cs : List Char) : List Char × List Char :=
  (cs.takeWhile Char.isDigit, cs.dropWhile Char.isDigit)

/-- Parse a decimal literal `[+-]digits[.digits][(e|E)[+-]digits]` after
trimming; `none` models a parse failure (coerced to `NaN` by
`pd.to_numeric`, or a raised `ValueError` from `float`). -/
def parseFloat? (s : String) : Option ℚ :=
  let cs0 := trimList s.toList
  let sgn : ℚ × List Char :=
    match cs0 with
    | '-' :: rest => (-1, rest)
    | '+' :: rest => (1, rest)
    | _ => (1, cs0)
  let ip := splitDigits sgn.2
  let fp : List Char × List Char :=
    match ip.2 with
    | '.' :: rest => splitDigits rest
    | _ => ([], ip.2)
  if ip.1.isEmpty && fp.1.isEmpty then none
  else
    let mant : ℚ := (digitsToNat ip.1 : ℚ) + (digitsToNat fp.1 : ℚ) / ((10 : ℚ) ^ fp.1.length)
    match fp.2 with
    | [] => some (sgn.1 * mant)
    | e :: rest =>
        if e = 'e' || e = 'E' then
          let es : ℤ × List Char :=
            match rest with
            | '-' :: r => (-1, r)
            | '+' :: r => (1, r)
            | _ => (1, rest)
          let ed := splitDigits es.2
          if ed.1.isEmpty || !ed.2.isEmpty then none
          else some (sgn.1 * mant * (10 : ℚ) ^ (es.1 * (digitsToNat ed.1 : ℤ)))
        else none

/-! ### Parsed CSV tables and the cleaning pipeline
(`services.analyze_equipment_csv_from_uploaded_file`) -/

/-- A parsed CSV: header names plus rows of cells, positionally aligned with
the headers.  A `none` cell is a blank/absent value (pandas `NaN`). -/
structure RawTable where
  headers : List String
  rows : List (List (Option String))
deriving DecidableEq, Repr

/-- The `required_columns` list of the analysis function. -/
def requiredColumns : List String :=
  ["equipment_name", "type", "flowrate", "pressure", "temperature"]

/-- The `readable_names` table used to word the missing-columns error. -/
def readableNames : List (String × String) :=
  [("equipment_name", "Equipment Name"),
   ("type", "Type"),
   ("flowrate", "Flowrate"),
   ("pressure", "Pressure"),
   ("temperature", "Temperature")]

/-- Column access on a row, pandas style: the cell under the first header
equal to `col` (`none` when the column is absent). -/
def getCell (headers : List String) (row : List (Option String)) (col : String) :
    Option String :=
  match headers.findIdx? (fun h => h == col) with
  | some i => (row[i]?).join
  | none => none

/-- Headers after `df.columns.str.strip().str.lower()` followed by
`normalize_column_name` (the latter re-trims and re-lowercases, so the
composition equals `normalize_column_name` alone). -/
def normalizedHeaders (t : RawTable) : List String :=
  t.headers.map (fun c => normalize_column_name (pyLower (pyStrip c)))

/-- Required columns absent from the normalized header set. -/
def missingColumns (t : RawTable) : List String :=
  requiredColumns.filter (fun c => !((normalizedHeaders t).contains c))

/-- `True` when every required cell of the row is blank — the rows removed
by `df.dropna(subset=required_columns, how='all')`. -/
def allRequiredBlank (hs : List String) (row : List (Option String)) : Bool :=
  requiredColumns.all (fun c => (getCell hs row c).isNone)

/-- Rows surviving `dropna(subset=required_columns, how='all')`, in input
order. -/
def cleanRows (t : RawTable) : List (List (Option String)) :=
  t.rows.filter (fun r => !allRequiredBlank (normalizedHeaders t) r)

/-- The cleaned `type` value: `fillna('Unknown').astype(str).str.strip()`. -/
def cleanedType (hs : List String) (row : List (Option String)) : String :=
  pyStrip ((getCell hs row "type").getD "Unknown")

/-- A cleaned row as shipped in `preview_rows`: numeric fields after
`pd.to_numeric(errors='coerce')`, `type` after the `Unknown` fill, and
`NaN` replaced by `None` (`preview_df.where(pd.notnull(preview_df), None)`). -/
structure CleanRow where
  equipment_name : Option String
  type : String
  flowrate : Option ℚ
  pressure : Option ℚ
  temperature : Option ℚ
deriving DecidableEq, Repr

/-- Build the `CleanRow` record of one surviving row. -/
def toCleanRow (hs : List String) (row : List (Option String)) : CleanRow :=
  { equipment_name := getCell hs row "equipment_name"
    type := cleanedType hs row
    flowrate := (getCell hs row "flowrate").bind parseFloat?
    pressure := (getCell hs row "pressure").bind parseFloat?
    temperature := (getCell hs row "temperature").bind parseFloat? }

/-- Round half to even to an integer, the behaviour of Python `round`. -/
def roundHalfEven (q : ℚ) : ℤ :=
  let f := ⌊q⌋
  let r := q - f
  if r < 1 / 2 then f
  else if 1 / 2 < r then f + 1
  else if f % 2 = 0 then f else f + 1

/-- `round(x, 2)`. -/
def round2 (q : ℚ) : ℚ := (roundHalfEven (q * 100) : ℚ) / 100

/-- `safe_round(series.mean())`: the mean of the non-null values rounded to
two decimals, `none` when there is no non-null value. -/
def meanRounded2 (vals : List ℚ) : Option ℚ :=
  if vals.isEmpty then none else some (round2 (vals.sum / (vals.length : ℚ)))

/-- The parsed numeric values present in one column of the cleaned rows. -/
def columnValues (t : RawTable) (col : String) : List ℚ :=
  (cleanRows t).filterMap (fun r => (getCell (normalizedHeaders t) r col).bind parseFloat?)

/-- The cleaned `type` value of every surviving row, in order. -/
def typeList (t : RawTable) : List String :=
  (cleanRows t).map (cleanedType (normalizedHeaders t))

/-- `value_counts().to_dict()` as an association list; the source presents
the keys in frequency order, which no claim depends on. -/
def typeDistribution (l : List String) : List (String × Nat) :=
  l.dedup.map (fun ty => (ty, l.count ty))

/-- The analysis result dictionary. -/
structure Summary where
  total_count : Nat
  avg_flowrate : Option ℚ
  avg_pressure : Option ℚ
  avg_temperature : Option ℚ
  type_distribution : List (String × Nat)
  preview_rows : List CleanRow
deriving DecidableEq, Repr

/-- `services.analyze_equipment_csv_from_uploaded_file` on a parsed table:
empty-file check, header normalization, required-column check, empty-row
drop, numeric coercion, statistics, and the 100-row preview.  Errors carry
the `CSVParsingError` message. -/
def analyze (t : RawTable) : Except String Summary :=
  if t.rows.isEmpty then
    .error "The uploaded CSV file is empty."
  else if !(missingColumns t).isEmpty then
    .error ("Missing required columns: " ++
      String.intercalate ", "
        ((missingColumns t).map (fun c => (readableNames.lookup c).getD c)))
  else if (cleanRows t).isEmpty then
    .error "No valid data found after cleaning empty rows."
  else
    .ok
      { total_count := (cleanRows t).length
        avg_flowrate := meanRounded2 (columnValues t "flowrate")
        avg_pressure := meanRounded2 (columnValues t "pressure")
        avg_temperature := meanRounded2 (columnValues t "temperature")
        type_distribution := typeDistribution (typeList t)
        preview_rows := ((cleanRows t).take 100).map (toCleanRow (normalizedHeaders t)) }

/-! ### Persisted entities and the retention manager
(`models.Dataset`, `models.Equipment`, `models.Dataset.prune_old_datasets`) -/

/-- A persisted `Dataset` row: identity, the stored summary fields, and a
flag saying whether `os.remove` on its backing blob would raise
(permissions / already gone). -/
structure StoredDataset where
  id : Nat
  name : String
  uploaded_at : Nat
  fileDeleteFails : Bool
  total_count : Nat
  avg_flowrate : Option ℚ
  avg_pressure : Option ℚ
  avg_temperature : Option ℚ
  type_distribution : List (String × Nat)
  preview_rows : List CleanRow
deriving DecidableEq, Repr

/-- A persisted `Equipment` row; the numeric columns are non-nullable
(`models.FloatField()` without `null=True`). -/
structure EquipmentRec where
  datasetId : Nat
  name : String
  type : String
  flowrate : ℚ
  pressure : ℚ
  temperature : ℚ
deriving DecidableEq, Repr

/-- `Dataset.objects.order_by('-uploaded_at')`: newer first. -/
def newerEq (a b : StoredDataset) : Prop := b.uploaded_at ≤ a.uploaded_at

instance : DecidableRel newerEq := fun _ _ => Nat.decLe _ _

instance : IsTotal StoredDataset newerEq :=
  ⟨fun a b => (Nat.le_total a.uploaded_at b.uploaded_at).symm⟩

instance : IsTrans StoredDataset newerEq :=
  ⟨fun _ _ _ h1 h2 => Nat.le_trans h2 h1⟩

/-- The queryset ordered newest-first. -/
def sortNewestFirst (l : List StoredDataset) : List StoredDataset :=
  l.insertionSort newerEq

/-- `os.remove(old_dataset.csv_file.path)`: raises `OSError` when the blob
cannot be removed. -/
def removeFile (old : StoredDataset) : Except String Unit :=
  if old.fileDeleteFails then .error "OSError" else .ok ()

/-- One iteration of the pruning loop: attempt the blob removal with the
`except (ValueError, OSError): pass` swallow, then delete the record
unconditionally. -/
def deleteOldDataset (s : List StoredDataset) (old : StoredDataset) :
    List StoredDataset :=
  match removeFile old with
  | .ok _ => s.filter (fun x => x.id != old.id)
  | .error _ => s.filter (fun x => x.id != old.id)

/-- `Dataset.prune_old_datasets`: order newest-first and, when more than 5
are stored, delete every dataset beyond rank 5. -/
def prune_old_datasets (store : List StoredDataset) : List StoredDataset :=
  let sorted := sortNewestFirst store
  if 5 < sorted.length then
    (sorted.drop 5).foldl deleteOldDataset store
  else store

/-- `Dataset.objects.create(...)` followed by the `save` override: insert
then prune. -/
def createDataset (store : List StoredDataset) (d : StoredDataset) :
    List StoredDataset :=
  prune_old_datasets (store ++ [d])

/-! ### The upload view (`views.UploadDatasetView.post`) -/

/-- The database state: dataset rows plus equipment rows. -/
structure Store where
  datasets : List StoredDataset
  equipments : List EquipmentRec
deriving DecidableEq, Repr

/-- Record deletion cascades to the dataset's equipment
(`on_delete=models.CASCADE`). -/
def pruneStore (st : Store) : Store :=
  let ds := prune_old_datasets st.datasets
  { datasets := ds
    equipments := st.equipments.filter (fun e => ds.any (fun d => d.id == e.datasetId)) }

/-- `file_obj.name.lower().endswith('.csv')`. -/
def endsWithCsv (name : String) : Bool := pyEndsWith (pyLower name) ".csv"

/-- One numeric field of an equipment record:
`float(row.get(col, 0)) if not pd.isna(row.get(col)) else 0.0` — a blank
cell becomes `0.0`, an unparseable value raises `ValueError`. -/
def floatCell (hs : List String) (row : List (Option String)) (col : String) :
    Except String ℚ :=
  match getCell hs row col with
  | none => .ok 0
  | some s =>
      match parseFloat? s with
      | some q => .ok q
      | none => .error ("could not convert string to float: " ++ s)

/-- Build one `Equipment` row from a raw CSV row (the view re-reads the
saved file, so no numeric coercion has happened here). -/
def toEquipment (dsId : Nat) (hs : List String) (row : List (Option String)) :
    Except String EquipmentRec :=
  match floatCell hs row "flowrate" with
  | .error e => .error e
  | .ok f =>
    match floatCell hs row "pressure" with
    | .error e => .error e
    | .ok p =>
      match floatCell hs row "temperature" with
      | .error e => .error e
      | .ok temp =>
        .ok { datasetId := dsId
              name := ((getCell hs row "equipment_name").map pyStrip).getD ""
              type := ((getCell hs row "type").map pyStrip).getD ""
              flowrate := f
              pressure := p
              temperature := temp }

/-- The equipment-creation loop over all raw rows, skipping rows whose
`equipment_name` and `type` are both blank; the first `ValueError` aborts
the loop. -/
def buildEquipmentRecords (dsId : Nat) (t : RawTable) :
    Except String (List EquipmentRec) :=
  let hs := normalizedHeaders t
  (t.rows.filter (fun r =>
      !((getCell hs r "equipment_name").isNone && (getCell hs r "type").isNone))).mapM
    (toEquipment dsId hs)

/-- An upload request: the optional `file` field carries a filename, a byte
size and the parsed content. -/
structure UploadRequest where
  fileName : Option String
  fileSize : Nat
  content : RawTable
deriving DecidableEq, Repr

/-- The HTTP outcomes of the upload view. -/
inductive UploadResponse where
  | created (s : Summary)
  | badRequest (error detail : String)
  | serverError (detail : String)
deriving DecidableEq, Repr

/-- The dataset row persisted by `Dataset.objects.create(...)` in the
upload view. -/
def mkDataset (newId : Nat) (name : String) (now : Nat) (fileDeleteFails : Bool)
    (s : Summary) : StoredDataset :=
  { id := newId
    name := name
    uploaded_at := now
    fileDeleteFails := fileDeleteFails
    total_count := s.total_count
    avg_flowrate := s.avg_flowrate
    avg_pressure := s.avg_pressure
    avg_temperature := s.avg_temperature
    type_distribution := s.type_distribution
    preview_rows := s.preview_rows }

/-- `UploadDatasetView.post`: missing-file check, extension check, analysis,
dataset creation (which prunes), then the equipment-record loop.  A failure
in that last loop is caught by the generic handler and returned as a 500 —
after the dataset row was already committed. -/
def uploadPost (store : Store) (req : UploadRequest) (newId : Nat) (now : Nat)
    (fileDeleteFails : Bool) (name : String) : UploadResponse × Store :=
  match req.fileName with
  | none =>
      (.badRequest "No file uploaded" "Please provide a CSV file in the \x22file\x22 field",
       store)
  | some fname =>
      if !endsWithCsv fname then
        (.badRequest "Invalid file type" "Only CSV files are allowed", store)
      else
        match analyze req.content with
        | .error e => (.badRequest "CSV parsing failed" e, store)
        | .ok s =>
            let ds := mkDataset newId name now fileDeleteFails s
            let afterCreate := pruneStore ⟨store.datasets ++ [ds], store.equipments⟩
            match buildEquipmentRecords newId req.content with
            | .error e => (.serverError e, afterCreate)
            | .ok eqs =>
                (.created s,
                 { afterCreate with equipments := afterCreate.equipments ++ eqs })

/-! ### Upload serializer and read-side assembly
(`serializers.DatasetUploadSerializer.validate_file`,
`serializers.DatasetDetailSerializer.get_preview_rows`,
`pdf_utils.generate_dataset_report_pdf`) -/

/-- `DatasetUploadSerializer.validate_file`: extension and 10 MiB size
checks.  (No view instantiates this serializer.) -/
def validate_file (name : String) (size : Nat) : Except String Unit :=
  if !endsWithCsv name then .error "Only CSV files are allowed."
  else if 10 * 1024 * 1024 < size then .error "File size must be less than 10MB."
  else .ok ()

/-- The fallback shape built from an equipment record in
`get_preview_rows`. -/
def equipmentToPreview (e : EquipmentRec) : CleanRow :=
  { equipment_name := some e.name
    type := e.type
    flowrate := some e.flowrate
    pressure := some e.pressure
    temperature := some e.temperature }

/-- `DatasetDetailSerializer.get_preview_rows`: the stored snapshot when it
is non-empty, otherwise the first 100 equipment records of the dataset. -/
def get_preview_rows (ds : StoredDataset) (equipments : List EquipmentRec) :
    List CleanRow :=
  if !ds.preview_rows.isEmpty then ds.preview_rows
  else ((equipments.filter (fun e => e.datasetId == ds.id)).take 100).map equipmentToPreview

/-- The data shown in the PDF's summary and type-distribution tables. -/
structure PdfSummary where
  total_count : Nat
  avg_flowrate : Option ℚ
  avg_pressure : Option ℚ
  avg_temperature : Option ℚ
  typeRows : List (String × Nat)
deriving DecidableEq, Repr

/-- The summary portion of `generate_dataset_report_pdf`: a projection of
the stored dataset fields. -/
def pdfSummaryOf (ds : StoredDataset) : PdfSummary :=
  { total_count := ds.total_count
    avg_flowrate := ds.avg_flowrate
    avg_pressure := ds.avg_pressure
    avg_temperature := ds.avg_temperature
    typeRows := ds.type_distribution }

/-! ### Concrete tables and stores used to evaluate the theorems -/

/-- The spec's concrete scenario plus a partially-blank and an all-blank
row. -/
def tMix : RawTable :=
  { headers := ["Equipment Name", "Type", "Flowrate", "Pressure", "Temperature"]
    rows := [[some "Pump-001", some "Pump", some "100.0", some "2.0", some "80.0"],
             [some "Pump-002", some "Pump", some "200.0", none, some "90.0"],
             [none, none, none, none, none]] }

/-- A minimal fully-valid table. -/
def tGood : RawTable :=
  { headers := ["Equipment Name", "Type", "Flowrate", "Pressure", "Temperature"]
    rows := [[some "A", some "Pump", some "1", some "2", some "3"]] }

/-- The summary `analyze` computes for `tGood`. -/
def sGood : Summary :=
  { total_count := 1
    avg_flowrate := some 1
    avg_pressure := some 2
    avg_temperature := some 3
    type_distribution := [("Pump", 1)]
    preview_rows := [{ equipment_name := some "A", type := "Pump",
                       flowrate := some 1, pressure := some 2, temperature := some 3 }] }

/-- A valid table whose `Flowrate` value `"abc"` is unparseable: analysis
coerces it to null, but the equipment-record loop's `float("abc")`
raises. -/
def tBad : RawTable :=
  { headers := ["Equipment Name", "Type", "Flowrate", "Pressure", "Temperature"]
    rows := [[some "P1", some "Pump", some "abc", some "1", some "2"]] }

/-! ### General helper lemmas -/

theorem length_filter_not_add {α : Type} (p : α → Bool) (l : List α) :
    (l.filter (fun a => !p a)).length + (l.filter p).length = l.length := by
  induction l with
  | nil => rfl
  | cons a l ih =>
      cases h : p a <;> simp [List.filter_cons, h] <;> omega

theorem meanRounded2_eq_none_iff (vals : List ℚ) :
    meanRounded2 vals = none ↔ vals = [] := by
  unfold meanRounded2
  split <;> simp_all [List.isEmpty_iff]

theorem deleteOldDataset_eq (s : List StoredDataset) (old : StoredDataset) :
    deleteOldDataset s old = s.filter (fun x => x.id != old.id) := by
  unfold deleteOldDataset
  cases removeFile old <;> rfl

theorem foldl_deleteOldDataset (ds : List StoredDataset) (s : List StoredDataset) :
    ds.foldl deleteOldDataset s
      = s.filter (fun x => ds.all (fun o => x.id != o.id)) := by
  induction ds generalizing s with
  | nil => simp
  | cons o ds ih =>
      rw [List.foldl_cons, ih, deleteOldDataset_eq, List.filter_filter]
      apply List.filter_congr
      intro x _
      simp [Bool.and_comm]

theorem sortNewestFirst_perm (l : List StoredDataset) :
    List.Perm (sortNewestFirst l) l :=
  List.perm_insertionSort newerEq l

theorem sortNewestFirst_sorted (l : List StoredDataset) :
    List.Sorted newerEq (sortNewestFirst l) :=
  List.sorted_insertionSort newerEq l

theorem prune_of_length_le (store : List StoredDataset) (h : store.length ≤ 5) :
    prune_old_datasets store = store := by
  have hlen : (sortNewestFirst store).length = store.length :=
    (sortNewestFirst_perm store).length_eq
  simp only [prune_old_datasets]
  rw [hlen, if_neg (by omega)]

/-- Inversion of a successful analysis. -/
theorem analyze_ok (t : RawTable) (s : Summary) (h : analyze t = .ok s) :
    (cleanRows t).isEmpty = false ∧
    s = { total_count := (cleanRows t).length
          avg_flowrate := meanRounded2 (columnValues t "flowrate")
          avg_pressure := meanRounded2 (columnValues t "pressure")
          avg_temperature := meanRounded2 (columnValues t "temperature")
          type_distribution := typeDistribution (typeList t)
          preview_rows := ((cleanRows t).take 100).map (toCleanRow (normalizedHeaders t)) } := by
  unfold analyze at h
  split at h
  · exact absurd h (by simp)
  · split at h
    · exact absurd h (by simp)
    · split at h
      · exact absurd h (by simp)
      · next hclean =>
          exact ⟨by simpa using hclean, by injection h with h; exact h.symm⟩

/-! ### Claim theorems -/

/-- C8: `normalize_column_name` (1) trims and lowercases the header,
(2) returns the canonical name on an exact alias-table match, (3) otherwise
replaces spaces with underscores, strips characters outside `[a-z0-9_]` and
consults the secondary synonym table, and (4) if still unmatched returns
the normalized-but-uncanonical string unchanged.  Being a total function,
it raises no error on any input. -/
theorem C8_normalize_column_name (h : String) :
    (∀ v, exactMapping.lookup (pyLower (pyStrip h)) = some v →
      normalize_column_name h = v) ∧
    (exactMapping.lookup (pyLower (pyStrip h)) = none →
      normalize_column_name h
        = ((columnMapping.lookup (stripDisallowed (spacesToUnderscores (pyLower (pyStrip h))))).getD
            (stripDisallowed (spacesToUnderscores (pyLower (pyStrip h)))))) := by
  constructor
  · intro v hv
    simp [normalize_column_name, hv]
  · intro hnone
    simp [normalize_column_name, hnone]

/-- Witness for C8: the secondary table maps `"Flow Rate"` to `flowrate`,
an exact alias maps `" TEMP "`... (exact table miss, synonym hit), and an
unmatched header comes back normalized but otherwise unchanged. -/
theorem C8_normalize_column_name_witness :
    normalize_column_name "Flow Rate" = "flowrate" ∧
    normalize_column_name "random col!" = "random_col" := by
  constructor
  · have h := (C8_normalize_column_name "Flow Rate").2 (by decide)
    rw [h]; decide
  · have h := (C8_normalize_column_name "random col!").2 (by decide)
    rw [h]; decide

/-- C1: on a table with rows and all five required canonical headers (a
valid CSV: no duplicated canonical header) whose rows are not all blank,
cleaning succeeds; a row is dropped iff all five required fields are blank,
`total_count` counts exactly the retained rows, i.e. the input rows minus
the all-blank rows. -/
theorem C1_clean_total_count (t : RawTable)
    (hne : t.rows ≠ [])
    (hreq : ∀ c ∈ requiredColumns, c ∈ normalizedHeaders t)
    (_hnodup : (normalizedHeaders t).Nodup)
    (hsome : ∃ r ∈ t.rows, allRequiredBlank (normalizedHeaders t) r = false) :
    ∃ s, analyze t = .ok s ∧
      s.total_count
        = (t.rows.filter (fun r => !allRequiredBlank (normalizedHeaders t) r)).length ∧
      s.total_count
          + (t.rows.filter (fun r => allRequiredBlank (normalizedHeaders t) r)).length
        = t.rows.length ∧
      ∀ r, r ∈ cleanRows t ↔
        (r ∈ t.rows ∧ allRequiredBlank (normalizedHeaders t) r = false) := by
  have hmiss : missingColumns t = [] := by
    unfold missingColumns
    rw [List.filter_eq_nil_iff]
    intro c hc
    simp [List.contains, hreq c hc]
  have hclean : (cleanRows t).isEmpty = false := by
    obtain ⟨r, hr, hb⟩ := hsome
    have hmem : r ∈ cleanRows t := by
      unfold cleanRows
      rw [List.mem_filter]
      exact ⟨hr, by simp [hb]⟩
    cases hcr : cleanRows t with
    | nil => exact absurd (hcr ▸ hmem) (by simp)
    | cons a l => rfl
  have hok : analyze t = .ok
      { total_count := (cleanRows t).length
        avg_flowrate := meanRounded2 (columnValues t "flowrate")
        avg_pressure := meanRounded2 (columnValues t "pressure")
        avg_temperature := meanRounded2 (columnValues t "temperature")
        type_distribution := typeDistribution (typeList t)
        preview_rows := ((cleanRows t).take 100).map (toCleanRow (normalizedHeaders t)) } := by
    unfold analyze
    rw [if_neg (by simp [hne]), hmiss]
    simp [hclean]
  refine ⟨_, hok, rfl, ?_, ?_⟩
  · exact length_filter_not_add (fun r => allRequiredBlank (normalizedHeaders t) r) t.rows
  · intro r
    unfold cleanRows
    rw [List.mem_filter]
    simp

/-- Witness for C1: on `tMix` (one full row, one row with only some blanks,
one all-blank row) cleaning succeeds with `total_count = 2`: the partially
blank row is retained and counted, the all-blank row is dropped. -/
theorem C1_clean_total_count_witness :
    ∃ s, analyze tMix = .ok s ∧ s.total_count = 2 := by
  obtain ⟨s, hok, hcount, -, -⟩ :=
    C1_clean_total_count tMix (by decide) (by decide) (by decide) (by decide)
  exact ⟨s, hok, hcount.trans (by decide)⟩

/-- Helper: the reported average of a column is null exactly when no
cleaned row contributes a parseable value. -/
theorem avg_none_iff (t : RawTable) (col : String) :
    meanRounded2 (columnValues t col) = none ↔
      ∀ r ∈ cleanRows t,
        (getCell (normalizedHeaders t) r col).bind parseFloat? = none := by
  rw [meanRounded2_eq_none_iff]
  unfold columnValues
  exact List.filterMap_eq_nil_iff

theorem meanRounded2_of_ne_nil {vals : List ℚ} (h : vals ≠ []) :
    meanRounded2 vals = some (round2 (vals.sum / (vals.length : ℚ))) := by
  unfold meanRounded2
  rw [if_neg (by simpa [List.isEmpty_iff] using h)]

/-- C2: for each numeric column, the reported average is null iff every
cleaned row has a null/unparseable value there, and otherwise equals the
arithmetic mean of the non-null values rounded to two decimals. -/
theorem C2_column_averages (t : RawTable) (s : Summary) (hok : analyze t = .ok s) :
    (s.avg_flowrate = none ↔
      ∀ r ∈ cleanRows t, (toCleanRow (normalizedHeaders t) r).flowrate = none) ∧
    (s.avg_pressure = none ↔
      ∀ r ∈ cleanRows t, (toCleanRow (normalizedHeaders t) r).pressure = none) ∧
    (s.avg_temperature = none ↔
      ∀ r ∈ cleanRows t, (toCleanRow (normalizedHeaders t) r).temperature = none) ∧
    (columnValues t "flowrate" ≠ [] →
      s.avg_flowrate = some (round2 ((columnValues t "flowrate").sum
        / ((columnValues t "flowrate").length : ℚ)))) ∧
    (columnValues t "pressure" ≠ [] →
      s.avg_pressure = some (round2 ((columnValues t "pressure").sum
        / ((columnValues t "pressure").length : ℚ)))) ∧
    (columnValues t "temperature" ≠ [] →
      s.avg_temperature = some (round2 ((columnValues t "temperature").sum
        / ((columnValues t "temperature").length : ℚ)))) := by
  obtain ⟨-, rfl⟩ := analyze_ok t s hok
  refine ⟨avg_none_iff t "flowrate", avg_none_iff t "pressure",
    avg_none_iff t "temperature", ?_, ?_, ?_⟩ <;>
    exact fun h => meanRounded2_of_ne_nil h

/-- Witness for C2 on the concrete table `tGood`. -/
theorem C2_column_averages_witness : sGood.avg_flowrate = some 1 := by
  have h := (C2_column_averages tGood sGood (by decide)).2.2.2.1 (by decide)
  rw [h]
  decide

/-- C3: the type-distribution counts sum to `total_count`, and every
distinct cleaned `type` value observed in the rows appears as a key. -/
theorem C3_type_distribution_total (t : RawTable) (s : Summary)
    (hok : analyze t = .ok s) :
    ((s.type_distribution.map Prod.snd).sum = s.total_count) ∧
    (∀ r ∈ cleanRows t,
      ∃ n, (cleanedType (normalizedHeaders t) r, n) ∈ s.type_distribution) := by
  obtain ⟨-, rfl⟩ := analyze_ok t s hok
  constructor
  · show ((typeDistribution (typeList t)).map Prod.snd).sum = (cleanRows t).length
    unfold typeDistribution
    rw [List.map_map]
    have hcomp : (Prod.snd ∘ fun ty => (ty, (typeList t).count ty))
        = fun ty => (typeList t).count ty := rfl
    rw [hcomp, List.sum_map_count_dedup_eq_length]
    unfold typeList
    rw [List.length_map]
  · intro r hr
    exact ⟨(typeList t).count (cleanedType (normalizedHeaders t) r),
      List.mem_map_of_mem _ (List.mem_dedup.mpr (List.mem_map_of_mem _ hr))⟩

/-- Witness for C3 on the concrete table `tGood`. -/
theorem C3_type_distribution_total_witness :
    (sGood.type_distribution.map Prod.snd).sum = sGood.total_count :=
  (C3_type_distribution_total tGood sGood (by decide)).1

/-- Helper: on a successful small-store upload, the created dataset row is
in the resulting store (whether or not the equipment loop succeeds). -/
theorem mem_uploadPost_datasets (store : Store) (req : UploadRequest)
    (newId now : Nat) (fdf : Bool) (nm : String) (s : Summary) (fname : String)
    (hf : req.fileName = some fname) (hcsv : endsWithCsv fname = true)
    (hok : analyze req.content = .ok s) (hsmall : store.datasets.length ≤ 4) :
    mkDataset newId nm now fdf s ∈ (uploadPost store req newId now fdf nm).2.datasets := by
  have hprune : prune_old_datasets (store.datasets ++ [mkDataset newId nm now fdf s])
      = store.datasets ++ [mkDataset newId nm now fdf s] := by
    apply prune_of_length_le
    rw [List.length_append]
    simpa using hsmall
  cases hbe : buildEquipmentRecords newId req.content with
  | error e =>
      simp only [uploadPost, hf, hok, hbe, hcsv, Bool.not_true, pruneStore, hprune]
      simp
  | ok eqs =>
      simp only [uploadPost, hf, hok, hbe, hcsv, Bool.not_true, pruneStore, hprune]
      simp

/-- C5: the preview is exactly the first 100 cleaned rows in input order,
null numeric values stay null (a blank or unparseable cell never becomes
a number), and the dataset row the upload view persists stores exactly the
summary's preview — the recomputation `analyze` would produce, truncated
to 100. -/
theorem C5_preview_rows (store : Store) (req : UploadRequest) (newId now : Nat)
    (fdf : Bool) (nm : String) (s : Summary) (fname : String)
    (hf : req.fileName = some fname) (hcsv : endsWithCsv fname = true)
    (hok : analyze req.content = .ok s)
    (hsmall : store.datasets.length ≤ 4) :
    s.preview_rows
      = ((cleanRows req.content).take 100).map (toCleanRow (normalizedHeaders req.content)) ∧
    s.preview_rows.length ≤ 100 ∧
    (∀ r ∈ cleanRows req.content,
      ((getCell (normalizedHeaders req.content) r "flowrate").bind parseFloat? = none →
        (toCleanRow (normalizedHeaders req.content) r).flowrate = none) ∧
      ((getCell (normalizedHeaders req.content) r "pressure").bind parseFloat? = none →
        (toCleanRow (normalizedHeaders req.content) r).pressure = none) ∧
      ((getCell (normalizedHeaders req.content) r "temperature").bind parseFloat? = none →
        (toCleanRow (normalizedHeaders req.content) r).temperature = none)) ∧
    mkDataset newId nm now fdf s ∈ (uploadPost store req newId now fdf nm).2.datasets ∧
    (mkDataset newId nm now fdf s).preview_rows = s.preview_rows := by
  have hmem := mem_uploadPost_datasets store req newId now fdf nm s fname hf hcsv hok hsmall
  obtain ⟨-, rfl⟩ := analyze_ok req.content s hok
  refine ⟨rfl, ?_, ?_, hmem, rfl⟩
  · show (((cleanRows req.content).take 100).map _).length ≤ 100
    rw [List.length_map, List.length_take]
    exact min_le_left _ _
  · intro r _
    exact ⟨fun h => h, fun h => h, fun h => h⟩

/-- Witness for C5 on a concrete upload of `tGood`. -/
theorem C5_preview_rows_witness :
    sGood.preview_rows.length ≤ 100 ∧
    mkDataset 1 "n" 0 false sGood
      ∈ (uploadPost ⟨[], []⟩ ⟨some "up.csv", 5, tGood⟩ 1 0 false "n").2.datasets := by
  obtain ⟨-, hlen, -, hmem, -⟩ :=
    C5_preview_rows ⟨[], []⟩ ⟨some "up.csv", 5, tGood⟩ 1 0 false "n" sGood "up.csv"
      rfl (by decide) (by decide) (by decide)
  exact ⟨hlen, hmem⟩

/-- The retention manager never leaves more than 5 datasets. -/
theorem prune_length_le (store : List StoredDataset) :
    (prune_old_datasets store).length ≤ 5 := by
  have key : ∀ (l₁ l₂ : List StoredDataset),
      ((l₁ ++ l₂).filter (fun x => l₂.all (fun o => x.id != o.id))).length ≤ l₁.length := by
    intro l₁ l₂
    rw [List.filter_append]
    have h2 : l₂.filter (fun x => l₂.all (fun o => x.id != o.id)) = [] := by
      rw [List.filter_eq_nil_iff]
      intro x hx hall
      have hself := (List.all_eq_true.mp hall) x hx
      simp at hself
    rw [h2, List.append_nil]
    exact List.length_filter_le _ _
  simp only [prune_old_datasets]
  split
  · rw [foldl_deleteOldDataset]
    have hperm := ((sortNewestFirst_perm store).filter
      (fun x => ((sortNewestFirst store).drop 5).all (fun o => x.id != o.id))).length_eq
    rw [← hperm]
    calc ((sortNewestFirst store).filter
            (fun x => ((sortNewestFirst store).drop 5).all (fun o => x.id != o.id))).length
        = ((((sortNewestFirst store).take 5) ++ ((sortNewestFirst store).drop 5)).filter
            (fun x => ((sortNewestFirst store).drop 5).all (fun o => x.id != o.id))).length := by
          rw [List.take_append_drop]
      _ ≤ ((sortNewestFirst store).take 5).length := key _ _
      _ ≤ 5 := by rw [List.length_take]; exact min_le_left _ _
  · next h =>
      rw [← (sortNewestFirst_perm store).length_eq]
      omega

/-- When a sixth dataset arrives, pruning removes exactly the unique
least-recently-uploaded one. -/
theorem createDataset_sixth (store : List StoredDataset) (d m : StoredDataset)
    (hlen : store.length = 5)
    (htimes : ((store ++ [d]).map (fun x => x.uploaded_at)).Nodup)
    (hm : m ∈ store ++ [d])
    (hmin : ∀ y ∈ store ++ [d], m.uploaded_at ≤ y.uploaded_at) :
    createDataset store d = (store ++ [d]).filter (fun x => x.id != m.id) := by
  have hlen6 : (store ++ [d]).length = 6 := by simp [hlen]
  have hslen : (sortNewestFirst (store ++ [d])).length = 6 :=
    (sortNewestFirst_perm (store ++ [d])).length_eq.trans hlen6
  have hdlen : ((sortNewestFirst (store ++ [d])).drop 5).length = 1 := by
    rw [List.length_drop, hslen]
  obtain ⟨x, hx⟩ := List.length_eq_one.mp hdlen
  have hxmem : x ∈ store ++ [d] :=
    (sortNewestFirst_perm (store ++ [d])).mem_iff.mp
      (List.mem_of_mem_drop (hx ▸ List.mem_singleton_self x))
  have hxmin : ∀ y ∈ store ++ [d], x.uploaded_at ≤ y.uploaded_at := by
    intro y hy
    have hy' : y ∈ sortNewestFirst (store ++ [d]) :=
      (sortNewestFirst_perm (store ++ [d])).mem_iff.mpr hy
    have hpw : List.Pairwise newerEq
        (((sortNewestFirst (store ++ [d])).take 5) ++ ((sortNewestFirst (store ++ [d])).drop 5)) := by
      rw [List.take_append_drop]
      exact sortNewestFirst_sorted (store ++ [d])
    rw [← List.take_append_drop 5 (sortNewestFirst (store ++ [d]))] at hy'
    rcases List.mem_append.mp hy' with h1 | h2
    · exact (List.pairwise_append.mp hpw).2.2 y h1 x (hx ▸ List.mem_singleton_self x)
    · rw [hx] at h2
      rw [List.mem_singleton.mp h2]
  have hxm : x = m := by
    by_contra hne
    exact hne (List.inj_on_of_nodup_map htimes hxmem hm
      (le_antisymm (hxmin m hm) (hmin x hxmem)))
  simp only [createDataset, prune_old_datasets]
  rw [if_pos (by rw [hslen]; omega), hx, hxm, List.foldl_cons, List.foldl_nil,
    deleteOldDataset_eq]

/-- C4: after any creation the store holds at most 5 datasets; when a sixth
dataset with distinct ids and timestamps is uploaded, exactly the
least-recently-uploaded one is evicted; and a blob-deletion failure
(`OSError`) never aborts the deletion of the database record. -/
theorem C4_retention (store : List StoredDataset) (d m : StoredDataset)
    (_hids : ((store ++ [d]).map (fun x => x.id)).Nodup) :
    (createDataset store d).length ≤ 5 ∧
    (store.length = 5 →
      ((store ++ [d]).map (fun x => x.uploaded_at)).Nodup →
      m ∈ store ++ [d] →
      (∀ y ∈ store ++ [d], m.uploaded_at ≤ y.uploaded_at) →
      createDataset store d = (store ++ [d]).filter (fun x => x.id != m.id)) ∧
    (∀ (s : List StoredDataset) (old : StoredDataset) (err : String),
      removeFile old = .error err →
      deleteOldDataset s old = s.filter (fun x => x.id != old.id)) :=
  ⟨prune_length_le _,
   fun h1 h2 h3 h4 => createDataset_sixth store d m h1 h2 h3 h4,
   fun s old _ _ => deleteOldDataset_eq s old⟩

/-- A dataset row with only identity data, for exercising retention. -/
def mkDs (i time : Nat) : StoredDataset :=
  { id := i, name := "d", uploaded_at := time, fileDeleteFails := false
    total_count := 0, avg_flowrate := none, avg_pressure := none
    avg_temperature := none, type_distribution := [], preview_rows := [] }

/-- A dataset whose backing blob cannot be removed. -/
def dsFail : StoredDataset := { mkDs 1 10 with fileDeleteFails := true }

/-- A store already holding five datasets. -/
def store5 : List StoredDataset :=
  [mkDs 1 10, mkDs 2 20, mkDs 3 30, mkDs 4 40, mkDs 5 50]

/-- Witness for C4: uploading a sixth dataset evicts exactly the oldest,
and a record whose blob removal raises is still deleted. -/
theorem C4_retention_witness :
    createDataset store5 (mkDs 6 60)
      = [mkDs 2 20, mkDs 3 30, mkDs 4 40, mkDs 5 50, mkDs 6 60] ∧
    deleteOldDataset [dsFail, mkDs 2 20] dsFail = [mkDs 2 20] := by
  have h := C4_retention store5 (mkDs 6 60) (mkDs 1 10) (by decide)
  constructor
  · have he := h.2.1 (by decide) (by decide) (by decide) (by decide)
    rw [he]
    decide
  · have hd := h.2.2 [dsFail, mkDs 2 20] dsFail "OSError" (by decide)
    rw [hd]
    decide

/-! ### C6: upload atomicity -/

/-- The summary `analyze` computes for `tBad` (the unparseable flowrate is
nulled, so analysis succeeds). -/
def sBad : Summary :=
  { total_count := 1
    avg_flowrate := none
    avg_pressure := some 1
    avg_temperature := some 2
    type_distribution := [("Pump", 1)]
    preview_rows := [{ equipment_name := some "P1", type := "Pump",
                       flowrate := none, pressure := some 1, temperature := some 2 }] }

/-- Counterexample to C6: on `tBad` the request fails with a 500 (the
equipment loop's `float("abc")` raises), yet the Dataset row is already
persisted — the store changed although the upload failed, so the pipeline
is not atomic. -/
theorem C6_upload_not_atomic_counterexample :
    (uploadPost ⟨[], []⟩ ⟨some "d.csv", 10, tBad⟩ 1 0 false "d").1
      = .serverError "could not convert string to float: abc" ∧
    (uploadPost ⟨[], []⟩ ⟨some "d.csv", 10, tBad⟩ 1 0 false "d").2
      ≠ (⟨[], []⟩ : Store) := by
  decide

/-- C6 amended: failures in the pre-persist phase (missing file, bad
extension, parse/clean/aggregate error) leave the store untouched; but once
the analysis succeeds the Dataset is committed, and a subsequent failure in
the equipment-record loop returns a server error while that Dataset stays
persisted. -/
theorem C6_upload_atomicity_amended (store : Store) (req : UploadRequest)
    (newId now : Nat) (fdf : Bool) (nm : String) :
    (req.fileName = none →
      (uploadPost store req newId now fdf nm).2 = store) ∧
    (∀ fname, req.fileName = some fname → endsWithCsv fname = false →
      (uploadPost store req newId now fdf nm).2 = store) ∧
    (∀ fname e, req.fileName = some fname → endsWithCsv fname = true →
      analyze req.content = .error e →
      uploadPost store req newId now fdf nm = (.badRequest "CSV parsing failed" e, store)) ∧
    (∀ fname s e, req.fileName = some fname → endsWithCsv fname = true →
      analyze req.content = .ok s →
      buildEquipmentRecords newId req.content = .error e →
      (uploadPost store req newId now fdf nm).1 = .serverError e ∧
      (uploadPost store req newId now fdf nm).2.datasets
        = prune_old_datasets (store.datasets ++ [mkDataset newId nm now fdf s])) := by
  refine ⟨?_, ?_, ?_, ?_⟩
  · intro h
    simp [uploadPost, h]
  · intro fname hf hbad
    simp [uploadPost, hf, hbad]
  · intro fname e hf hcsv herr
    simp [uploadPost, hf, hcsv, herr]
  · intro fname s e hf hcsv hok hbe
    constructor <;> simp [uploadPost, hf, hcsv, hok, hbe, pruneStore]

/-- Witness for the amended C6. -/
theorem C6_upload_atomicity_amended_witness :
    (uploadPost ⟨[], []⟩ ⟨none, 0, tGood⟩ 1 0 false "d").2 = (⟨[], []⟩ : Store) ∧
    (uploadPost ⟨[], []⟩ ⟨some "d.csv", 10, tBad⟩ 1 0 false "d").1
      = .serverError "could not convert string to float: abc" := by
  constructor
  · exact (C6_upload_atomicity_amended ⟨[], []⟩ ⟨none, 0, tGood⟩ 1 0 false "d").1 rfl
  · exact ((C6_upload_atomicity_amended ⟨[], []⟩ ⟨some "d.csv", 10, tBad⟩ 1 0 false "d").2.2.2
      "d.csv" sBad "could not convert string to float: abc" rfl (by decide) (by decide)
      (by decide)).1

/-! ### C7: upload pre-checks -/

/-- An 10MiB+1 upload with valid CSV content. -/
def bigReq : UploadRequest := ⟨some "big.csv", 10 * 1024 * 1024 + 1, tGood⟩

/-- Counterexample to C7: the upload view performs no size check — an
oversized file is fully parsed, analyzed and persisted, although the
(unused) serializer check would have rejected it. -/
theorem C7_size_check_counterexample :
    10 * 1024 * 1024 < bigReq.fileSize ∧
    validate_file "big.csv" bigReq.fileSize
      = .error "File size must be less than 10MB." ∧
    (uploadPost ⟨[], []⟩ bigReq 1 0 false "d").1 = .created sGood ∧
    (uploadPost ⟨[], []⟩ bigReq 1 0 false "d").2.datasets ≠ [] := by
  refine ⟨by decide, by decide, by decide, by decide⟩

/-- C7 amended: the view checks only the extension before parsing,
independent of content; its behaviour does not depend on the file size at
all; the 10 MiB check exists only in `DatasetUploadSerializer.validate_file`,
which the upload view never invokes. -/
theorem C7_upload_checks_amended (store : Store) (req : UploadRequest)
    (newId now : Nat) (fdf : Bool) (nm : String) (fname : String)
    (hf : req.fileName = some fname) :
    (endsWithCsv fname = false →
      uploadPost store req newId now fdf nm
        = (.badRequest "Invalid file type" "Only CSV files are allowed", store)) ∧
    (∀ sz, uploadPost store { req with fileSize := sz } newId now fdf nm
        = uploadPost store req newId now fdf nm) ∧
    (∀ nm2 sz, 10 * 1024 * 1024 < sz → validate_file nm2 sz ≠ .ok ()) := by
  refine ⟨?_, ?_, ?_⟩
  · intro hbad
    simp [uploadPost, hf, hbad]
  · intro sz
    rfl
  · intro nm2 sz hsz
    unfold validate_file
    split <;> simp [hsz]

/-- Witness for the amended C7. -/
theorem C7_upload_checks_amended_witness :
    uploadPost ⟨[], []⟩ ⟨some "x.txt", 3, tGood⟩ 1 0 false "d"
      = (.badRequest "Invalid file type" "Only CSV files are allowed", (⟨[], []⟩ : Store)) ∧
    validate_file "big.csv" (10 * 1024 * 1024 + 1) ≠ .ok () := by
  have h := C7_upload_checks_amended ⟨[], []⟩ ⟨some "x.txt", 3, tGood⟩ 1 0 false "d" "x.txt" rfl
  exact ⟨h.1 (by decide), h.2.2 "big.csv" _ (by decide)⟩

/-! ### C9: read-side assembly is a projection of stored fields -/

/-- A dataset whose stored preview snapshot is empty. -/
def dsNoPrev : StoredDataset := mkDs 1 10

/-- One equipment row belonging to dataset 1. -/
def eqX : EquipmentRec :=
  { datasetId := 1, name := "X", type := "Pump", flowrate := 1, pressure := 2, temperature := 3 }

/-- Counterexample to C9: with identical stored summary fields (here the
very same dataset row, whose stored preview is empty) the serializer's
output depends on the EquipmentRecords — `get_preview_rows` falls back to
them. -/
theorem C9_pure_projection_counterexample :
    get_preview_rows dsNoPrev [eqX] ≠ get_preview_rows dsNoPrev [] := by
  decide

/-- C9 amended: the PDF summary is a pure projection of the stored fields,
and the detail serializer's preview depends only on the stored snapshot
whenever that snapshot is non-empty; only for an empty stored snapshot does
it fall back to the first 100 EquipmentRecords. -/
theorem C9_pure_projection_amended (a b : StoredDataset)
    (eqa eqb : List EquipmentRec)
    (hprev : a.preview_rows = b.preview_rows) (hne : a.preview_rows ≠ []) :
    get_preview_rows a eqa = get_preview_rows b eqb ∧
    pdfSummaryOf a
      = { total_count := a.total_count, avg_flowrate := a.avg_flowrate
          avg_pressure := a.avg_pressure, avg_temperature := a.avg_temperature
          typeRows := a.type_distribution } := by
  have ha : (!a.preview_rows.isEmpty) = true := by
    simp only [Bool.not_eq_true']
    cases hcr : a.preview_rows with
    | nil => exact absurd hcr hne
    | cons x l => rfl
  have hb : (!b.preview_rows.isEmpty) = true := by rw [← hprev]; exact ha
  constructor
  · unfold get_preview_rows
    rw [if_pos ha, if_pos hb]
    exact hprev
  · rfl

/-- A stored preview row. -/
def prevRow : CleanRow :=
  { equipment_name := some "A", type := "Pump"
    flowrate := some 1, pressure := some 2, temperature := some 3 }

/-- A dataset with a non-empty stored preview snapshot. -/
def dsWithPrev : StoredDataset := { mkDs 1 10 with preview_rows := [prevRow] }

/-- Witness for the amended C9. -/
theorem C9_pure_projection_amended_witness :
    get_preview_rows dsWithPrev [eqX] = get_preview_rows dsWithPrev [] :=
  (C9_pure_projection_amended dsWithPrev dsWithPrev [eqX] [] rfl (by decide)).1

/-! ### C10: numeric defaults in persisted equipment records -/

/-- The five canonical headers, already normalized. -/
def hsCanon : List String :=
  ["equipment_name", "type", "flowrate", "pressure", "temperature"]

/-- A raw row whose flowrate cell is unparseable. -/
def rowBad : List (Option String) :=
  [some "P1", some "Pump", some "abc", some "1", some "2"]

/-- A raw row whose flowrate cell is blank. -/
def rowMiss : List (Option String) :=
  [some "P2", some "Valve", none, some "1", some "2"]

/-- Counterexample to C10: for an unparseable flowrate the cleaned row's
value is null, but the equipment-record constructor raises instead of
storing `0.0` — no record is persisted at all. -/
theorem C10_zero_fill_counterexample :
    (toCleanRow hsCanon rowBad).flowrate = none ∧
    toEquipment 1 hsCanon rowBad = .error "could not convert string to float: abc" := by
  decide

theorem floatCell_none {hs : List String} {row : List (Option String)} {col : String}
    (h : getCell hs row col = none) : floatCell hs row col = .ok 0 := by
  unfold floatCell
  rw [h]

/-- Inversion of a successful equipment-record construction. -/
theorem toEquipment_ok_inv {dsId : Nat} {hs : List String} {row : List (Option String)}
    {e : EquipmentRec} (hok : toEquipment dsId hs row = .ok e) :
    ∃ f p temp, floatCell hs row "flowrate" = .ok f ∧
      floatCell hs row "pressure" = .ok p ∧
      floatCell hs row "temperature" = .ok temp ∧
      e.flowrate = f ∧ e.pressure = p ∧ e.temperature = temp := by
  unfold toEquipment at hok
  cases h1 : floatCell hs row "flowrate" with
  | error e1 => rw [h1] at hok; simp at hok
  | ok f =>
    rw [h1] at hok
    cases h2 : floatCell hs row "pressure" with
    | error e2 => rw [h2] at hok; simp at hok
    | ok p =>
      rw [h2] at hok
      cases h3 : floatCell hs row "temperature" with
      | error e3 => rw [h3] at hok; simp at hok
      | ok temp =>
        rw [h3] at hok
        injection hok with hrec
        exact ⟨f, p, temp, rfl, rfl, rfl, by rw [← hrec], by rw [← hrec], by rw [← hrec]⟩

/-- C10 amended: every successfully persisted EquipmentRecord carries
concrete (non-null) numeric values; a blank numeric cell is stored as 0.0;
but an unparseable numeric value never produces a record at all (the
constructor fails), rather than being stored as 0.0. -/
theorem C10_zero_fill_amended (dsId : Nat) (hs : List String)
    (row : List (Option String)) (e : EquipmentRec)
    (hok : toEquipment dsId hs row = .ok e) :
    (getCell hs row "flowrate" = none → e.flowrate = 0) ∧
    (getCell hs row "pressure" = none → e.pressure = 0) ∧
    (getCell hs row "temperature" = none → e.temperature = 0) ∧
    (∀ str, getCell hs row "flowrate" = some str → parseFloat? str ≠ none) ∧
    (∀ str, getCell hs row "pressure" = some str → parseFloat? str ≠ none) ∧
    (∀ str, getCell hs row "temperature" = some str → parseFloat? str ≠ none) := by
  obtain ⟨f, p, temp, h1, h2, h3, e1, e2, e3⟩ := toEquipment_ok_inv hok
  refine ⟨?_, ?_, ?_, ?_, ?_, ?_⟩
  · intro hn
    rw [floatCell_none hn] at h1
    injection h1 with h
    rw [e1, ← h]
  · intro hn
    rw [floatCell_none hn] at h2
    injection h2 with h
    rw [e2, ← h]
  · intro hn
    rw [floatCell_none hn] at h3
    injection h3 with h
    rw [e3, ← h]
  · intro str hsome hnone
    unfold floatCell at h1
    rw [hsome] at h1
    simp [hnone] at h1
  · intro str hsome hnone
    unfold floatCell at h2
    rw [hsome] at h2
    simp [hnone] at h2
  · intro str hsome hnone
    unfold floatCell at h3
    rw [hsome] at h3
    simp [hnone] at h3

/-- Witness for the amended C10: a blank flowrate is stored as 0.0. -/
theorem C10_zero_fill_amended_witness :
    toEquipment 1 hsCanon rowMiss
      = .ok { datasetId := 1, name := "P2", type := "Valve",
              flowrate := 0, pressure := 1, temperature := 2 } ∧
    ({ datasetId := 1, name := "P2", type := "Valve",
       flowrate := 0, pressure := 1, temperature := 2 } : EquipmentRec).flowrate = 0 := by
  constructor
  · decide
  · exact (C10_zero_fill_amended 1 hsCanon rowMiss _ (by decide)).1 (by decide)

end ChemAnalyzer
